import Mathlib

/-!
Shallow embedding of the possession-segmentation core of the
`wnba-rapm` repository (`etl.py`), together with theorems checking the
natural-language specification against it.

A play-by-play DataFrame row becomes a `Play` structure; a DataFrame of
rows becomes a `List Play` in row order (pandas boolean-mask filtering
preserves row order, so it becomes `List.filter`).  The pandas
`str.contains(pat, na=False)` test becomes `containsNA`, and the Python
`pat in str(x)` test becomes `containsStr` (NaN prints as "nan", which
contains none of the patterns used).  The game-context lookup
(`data.ingest_game_data`, not part of the core) is replaced by passing
the home and visitor team identifiers directly to `isolate_possessions`.
-/

namespace WnbaRapm

/-- `matchesAt pat s` is true when `pat` occurs at the head of `s`. -/
def matchesAt : List Char → List Char → Bool
  | [], _ => true
  | _ :: _, [] => false
  | a :: as, b :: bs => a == b && matchesAt as bs

/-- `hasSub pat s` is true when `pat` occurs as a contiguous run inside `s`
(the semantics of Python's `pat in s` on strings). -/
def hasSub (pat : List Char) : List Char → Bool
  | [] => pat.isEmpty
  | b :: rest => matchesAt pat (b :: rest) || hasSub pat rest

/-- String containment test, `pat in s` in Python. -/
def strContains (s pat : String) : Bool :=
  hasSub pat.data s.data

/-- pandas `series.str.contains(pat, na=False)`: a missing description
counts as not containing the pattern. -/
def containsNA (d : Option String) (pat : String) : Bool :=
  match d with
  | none => false
  | some s => strContains s pat

/-- Python `str(x)` on a possibly-NaN description cell. -/
def strOfDesc : Option String → String
  | none => "nan"
  | some s => s

/-- Python `pat in str(x)` on a possibly-NaN description cell. -/
def containsStr (d : Option String) (pat : String) : Bool :=
  strContains (strOfDesc d) pat

/-- One row of the play-by-play stream (`pbp_df`), with the columns the
core reads: event index, event-type code, the two free-text
descriptions, the responsible player and team, and the ten on-court
player slots (five home, five visitor, in column order). -/
structure Play where
  eventnum : Int
  eventmsgtype : Int
  homedescription : Option String
  visitordescription : Option String
  player1_id : Int
  player1_team_id : Int
  home_players : List Int
  visitor_players : List Int
deriving DecidableEq

/-- One output row of the possession table, as built by
`construct_rapm_observation`-shaped helpers in `etl.py`. -/
structure PossRecord where
  points : Int
  eventnum : Int
  offensive_team_id : Int
  defensive_team_id : Int
  offensive_players : List Int
  defensive_players : List Int
deriving DecidableEq

/-- The row mask of `etl.py` lines 40-61 restricted to one row: a missed
field goal, or a free throw whose descriptions mark a miss and a final
attempt of its trip ("1 of 1", "2 of 2" or "3 of 3"). -/
def isQualifyingMiss (p : Play) : Bool :=
  decide (p.eventmsgtype = 2) ||
    (decide (p.eventmsgtype = 3) &&
      (containsNA p.homedescription "MISS" || containsNA p.visitordescription "MISS") &&
      (containsNA p.homedescription "1 of 1" || containsNA p.visitordescription "1 of 1" ||
       containsNA p.homedescription "2 of 2" || containsNA p.visitordescription "2 of 2" ||
       containsNA p.homedescription "3 of 3" || containsNA p.visitordescription "3 of 3"))

/-- Row mask `last_possession < eventnum < hi` (exclusive lookback window). -/
def inWindowExcl (c hi : Int) (p : Play) : Bool :=
  decide (c < p.eventnum) && decide (p.eventnum < hi)

/-- Row mask `last_possession < eventnum <= hi` (inclusive lookback window). -/
def inWindowIncl (c hi : Int) (p : Play) : Bool :=
  decide (c < p.eventnum) && decide (p.eventnum ≤ hi)

/-- Stable insertion of a play into a list sorted by `eventnum`. -/
def insertByEventnum (p : Play) : List Play → List Play
  | [] => [p]
  | q :: qs => if p.eventnum ≤ q.eventnum then p :: q :: qs else q :: insertByEventnum p qs

/-- Stable sort by `eventnum` (`DataFrame.sort_values("eventnum")`). -/
def sortByEventnum (l : List Play) : List Play :=
  l.foldr insertByEventnum []

/-- The `shot` selection of `determine_rebound_type` (lines 40-68): the
last row, in ascending `eventnum` order, of the qualifying misses
strictly between the cursor and the rebound; `none` when the filter is
empty. -/
def qualifying_shot (play : Play) (pbp : List Play) (last_possession : Int) : Option Play :=
  (sortByEventnum
    (pbp.filter (fun p => inWindowExcl last_possession play.eventnum p && isQualifyingMiss p))).getLast?

/-- `determine_rebound_type` of `etl.py`: classifies a rebound as
defensive or not, with the points scored on the possession before the
rebound and the event number of a field goal to remove (`-1` when none). -/
def determine_rebound_type (play : Play) (pbp : List Play) (last_possession : Int) :
    Bool × Int × Int :=
  match qualifying_shot play pbp last_possession with
  | none => (false, 0, -1)
  | some shot =>
    let poss := pbp.filter (inWindowExcl last_possession play.eventnum)
    let pr : Int × Int :=
      if shot.eventmsgtype = 3 then
        let made_shot_df := poss.filter
          (fun p => decide (p.eventmsgtype = 1) && decide (p.player1_id = shot.player1_id))
        let missed_shot_df := poss.filter
          (fun p => decide (p.eventmsgtype = 2) && decide (p.player1_id = shot.player1_id))
        let made_free_throw_df := poss.filter
          (fun p => decide (p.eventmsgtype = 3) &&
            !containsNA p.homedescription "MISS" && !containsNA p.visitordescription "MISS")
        match made_shot_df.getLast? with
        | some made_shot =>
          ((if containsStr made_shot.homedescription "3PT" ||
              containsStr made_shot.visitordescription "3PT" then (3 : Int) else 2) +
            made_free_throw_df.length,
           made_shot.eventnum)
        | none =>
          match missed_shot_df.getLast? with
          | some missed_shot => ((made_free_throw_df.length : Int), missed_shot.eventnum)
          | none => ((made_free_throw_df.length : Int), -1)
      else (0, -1)
    let def_rebound := decide (shot.player1_team_id ≠ play.player1_team_id) &&
      decide (shot.player1_team_id ≠ play.player1_id)
    (def_rebound, pr.1, pr.2)

/-- The description column chosen by `determine_scoring_type`
(line 191): the home column when the triggering shooter's team is the
home team, else the visitor column. -/
def descColumn (play : Play) (home_id : Int) (p : Play) : Option String :=
  if play.player1_team_id = home_id then p.homedescription else p.visitordescription

/-- `determine_scoring_type` of `etl.py`: decides whether a made shot or
free throw ends the possession, with the points scored and the event
number of a field goal to remove (`-1` when none). -/
def determine_scoring_type (play : Play) (pbp : List Play) (last_possession : Int)
    (home_id : Int) : Bool × Int × Int :=
  let poss := pbp.filter (inWindowIncl last_possession play.eventnum)
  if play.eventmsgtype = 1 then
    let made_free_throw_df := poss.filter
      (fun p => decide (p.eventmsgtype = 3) && !containsNA (descColumn play home_id p) "MISS")
    (true,
     (if containsStr play.homedescription "3PT" ||
        containsStr play.visitordescription "3PT" then (3 : Int) else 2) +
       made_free_throw_df.length,
     -1)
  else
    let ft_by_player := poss.filter
      (fun p => decide (p.eventmsgtype = 3) && decide (p.player1_id = play.player1_id) &&
        !containsNA (descColumn play home_id p) "MISS")
    if 0 < ft_by_player.length then
      let made_shot_df := poss.filter
        (fun p => decide (p.eventmsgtype = 1) && decide (p.player1_id = play.player1_id))
      let pr : Int × Int :=
        match made_shot_df.getLast? with
        | some made_shot =>
          ((if containsStr (descColumn play home_id made_shot) "3PT" then (3 : Int) else 2),
           made_shot.eventnum)
        | none => (0, -1)
      let made_free_throw_df := poss.filter
        (fun p => decide (p.eventmsgtype = 3) && !containsNA (descColumn play home_id p) "MISS")
      (true, pr.1 + made_free_throw_df.length, pr.2)
    else (false, 0, -1)

/-- `create_turnover_play`: the team committing the turnover is on
offense, points are zero. -/
def create_turnover_play (play : Play) (home_id visitor_id : Int) : PossRecord :=
  if play.player1_team_id = home_id then
    { points := 0, eventnum := play.eventnum,
      offensive_team_id := home_id, defensive_team_id := visitor_id,
      offensive_players := play.home_players, defensive_players := play.visitor_players }
  else
    { points := 0, eventnum := play.eventnum,
      offensive_team_id := visitor_id, defensive_team_id := home_id,
      offensive_players := play.visitor_players, defensive_players := play.home_players }

/-- `create_rebound_play`: the rebounding team is on defense. -/
def create_rebound_play (play : Play) (home_id visitor_id : Int) (points : Int) : PossRecord :=
  if play.player1_team_id = home_id then
    { points := points, eventnum := play.eventnum,
      offensive_team_id := visitor_id, defensive_team_id := home_id,
      offensive_players := play.visitor_players, defensive_players := play.home_players }
  else
    { points := points, eventnum := play.eventnum,
      offensive_team_id := home_id, defensive_team_id := visitor_id,
      offensive_players := play.home_players, defensive_players := play.visitor_players }

/-- `create_scoring_play`: the scoring team is on offense. -/
def create_scoring_play (play : Play) (home_id visitor_id : Int) (points : Int) : PossRecord :=
  if play.player1_team_id = home_id then
    { points := points, eventnum := play.eventnum,
      offensive_team_id := home_id, defensive_team_id := visitor_id,
      offensive_players := play.home_players, defensive_players := play.visitor_players }
  else
    { points := points, eventnum := play.eventnum,
      offensive_team_id := visitor_id, defensive_team_id := home_id,
      offensive_players := play.visitor_players, defensive_players := play.home_players }

/-- Retraction by event-index key: `poss_df[poss_df["eventnum"] != remove_shot]`. -/
def retractRecord (poss : List PossRecord) (v : Int) : List PossRecord :=
  poss.filter (fun r => decide (r.eventnum ≠ v))

/-- The sequencer state of `isolate_possessions`: the accumulated
possession table and the last-possession cursor. -/
structure SeqState where
  poss : List PossRecord
  last_possession : Int
deriving DecidableEq

/-- One iteration of the `isolate_possessions` loop (lines 450-479). -/
def possession_step (home_id visitor_id : Int) (pbp : List Play) (st : SeqState)
    (row : Play) : SeqState :=
  if row.eventmsgtype = 5 then
    { poss := st.poss ++ [create_turnover_play row home_id visitor_id],
      last_possession := row.eventnum }
  else if row.eventmsgtype = 4 then
    let res := determine_rebound_type row pbp st.last_possession
    if res.1 then
      { poss := retractRecord st.poss res.2.2 ++
          [create_rebound_play row home_id visitor_id res.2.1],
        last_possession := row.eventnum }
    else st
  else if row.eventmsgtype = 1 ∨ row.eventmsgtype = 3 then
    let res := determine_scoring_type row pbp st.last_possession home_id
    if res.1 then
      { poss := retractRecord st.poss res.2.2 ++
          [create_scoring_play row home_id visitor_id res.2.1],
        last_possession := row.eventnum }
    else st
  else st

/-- `isolate_possessions` of `etl.py`: one pass over the ordered event
stream, accumulating the possession table.  The home and visitor team
identifiers (fetched from game data in the source) are passed directly. -/
def isolate_possessions (pbp : List Play) (home_id visitor_id : Int) : List PossRecord :=
  (pbp.foldl (possession_step home_id visitor_id pbp) { poss := [], last_possession := 0 }).poss

/-! ## General helper lemmas -/

theorem filter_window_fuse {α : Type} (w q : α → Bool) (l : List α) :
    (l.filter w).filter q = l.filter (fun a => w a && q a) := by
  rw [List.filter_filter]
  exact List.filter_congr fun a _ => Bool.and_comm (q a) (w a)

theorem length_filter_pos {α : Type} {p : α → Bool} {l : List α} :
    0 < (l.filter p).length ↔ ∃ a ∈ l, p a = true := by
  simp [List.length_pos_iff_exists_mem, List.mem_filter]

/-- C4: for every made-field-goal event, `determine_scoring_type` always
returns a valid boundary with no void-index, and points equal to 2 (or 3
when the triggering event's home or visitor description contains a
three-point marker) plus the count of free-throw events in the window
(cursor, event index] whose same-side description does not mark a miss. -/
theorem scoring_made_fg_boundary (play : Play) (pbp : List Play) (c home_id : Int)
    (h1 : play.eventmsgtype = 1) :
    determine_scoring_type play pbp c home_id =
      (true,
       (if containsStr play.homedescription "3PT" || containsStr play.visitordescription "3PT"
          then (3 : Int) else 2) +
         ((pbp.filter (fun p => inWindowIncl c play.eventnum p &&
             (decide (p.eventmsgtype = 3) &&
               !containsNA (descColumn play home_id p) "MISS"))).length : Int),
       -1) := by
  simp only [determine_scoring_type]
  rw [if_pos h1, filter_window_fuse]

/-- C2 (amended): a free-throw event is a valid boundary exactly when the
window (cursor, event index] — which includes the triggering attempt
itself — contains at least one made free throw by the same responsible
player.  A made earlier attempt of a multi-attempt trip therefore does
close a possession by itself. -/
theorem ft_boundary_iff_made_ft (play : Play) (pbp : List Play) (c home_id : Int)
    (h1 : play.eventmsgtype ≠ 1) :
    ((determine_scoring_type play pbp c home_id).1 = true ↔
      ∃ p ∈ pbp, inWindowIncl c play.eventnum p = true ∧ p.eventmsgtype = 3 ∧
        p.player1_id = play.player1_id ∧
        containsNA (descColumn play home_id p) "MISS" = false) := by
  have key : (determine_scoring_type play pbp c home_id).1 = true ↔
      0 < ((pbp.filter (inWindowIncl c play.eventnum)).filter
        (fun p => decide (p.eventmsgtype = 3) && decide (p.player1_id = play.player1_id) &&
          !containsNA (descColumn play home_id p) "MISS")).length := by
    simp only [determine_scoring_type]
    rw [if_neg h1]
    split
    · next hpos => simpa using hpos
    · next hneg => simpa using hneg
  rw [key, filter_window_fuse, length_filter_pos]
  simp [Bool.and_eq_true, decide_eq_true_iff, Bool.not_eq_true', and_assoc]

/-- C5: a rebound with a qualifying miss is classified defensive exactly
when the qualifying miss's responsible team identifier differs from both
the rebound's responsible team identifier and the rebound's responsible
player identifier. -/
theorem rebound_defensive_iff (play shot : Play) (pbp : List Play) (c : Int)
    (hq : qualifying_shot play pbp c = some shot) :
    ((determine_rebound_type play pbp c).1 = true ↔
      shot.player1_team_id ≠ play.player1_team_id ∧
        shot.player1_team_id ≠ play.player1_id) := by
  simp only [determine_rebound_type, hq]
  simp [Bool.and_eq_true, decide_eq_true_iff]

/-- C8: a rebound with no qualifying miss strictly between the cursor and
the rebound's index gets the non-boundary result `(false, 0, -1)` from
`determine_rebound_type`, and the sequencer leaves its state unchanged. -/
theorem rebound_without_miss_skipped (play : Play) (pbp : List Play) (st : SeqState)
    (home_id visitor_id : Int) (h4 : play.eventmsgtype = 4)
    (hno : ∀ p ∈ pbp, ¬(st.last_possession < p.eventnum ∧ p.eventnum < play.eventnum ∧
        isQualifyingMiss p = true)) :
    determine_rebound_type play pbp st.last_possession = (false, 0, -1) ∧
    possession_step home_id visitor_id pbp st play = st := by
  have hfilter : pbp.filter (fun p => inWindowExcl st.last_possession play.eventnum p &&
      isQualifyingMiss p) = [] := by
    rw [List.filter_eq_nil_iff]
    intro p hp hcontra
    exact hno p hp (by simpa [inWindowExcl, Bool.and_eq_true, decide_eq_true_iff,
      and_assoc] using hcontra)
  have hqs : qualifying_shot play pbp st.last_possession = none := by
    rw [qualifying_shot, hfilter]
    rfl
  have hdet : determine_rebound_type play pbp st.last_possession = (false, 0, -1) := by
    simp only [determine_rebound_type, hqs]
  refine ⟨hdet, ?_⟩
  simp [possession_step, h4, hdet]

/-- C3 (amended): for a rebound whose qualifying miss is a final-trip
missed free throw, when the window contains a made field goal by the
qualifying player the points are that shot's value plus the count of
made free throws in the window regardless of which player took them
(with the made shot's index voided); otherwise the points are the count
of all made free throws in the window (with the last missed field goal
by the qualifying player voided, when one exists). -/
theorem rebound_ft_points_formula (play shot : Play) (pbp : List Play) (c : Int)
    (hq : qualifying_shot play pbp c = some shot) (h3 : shot.eventmsgtype = 3) :
    (match (pbp.filter (fun p => inWindowExcl c play.eventnum p &&
        (decide (p.eventmsgtype = 1) && decide (p.player1_id = shot.player1_id)))).getLast? with
     | some made_shot =>
        (determine_rebound_type play pbp c).2.1 =
          (if containsStr made_shot.homedescription "3PT" ||
             containsStr made_shot.visitordescription "3PT" then (3 : Int) else 2) +
            ((pbp.filter (fun p => inWindowExcl c play.eventnum p &&
               (decide (p.eventmsgtype = 3) && !containsNA p.homedescription "MISS" &&
                !containsNA p.visitordescription "MISS"))).length : Int) ∧
        (determine_rebound_type play pbp c).2.2 = made_shot.eventnum
     | none =>
        (determine_rebound_type play pbp c).2.1 =
          ((pbp.filter (fun p => inWindowExcl c play.eventnum p &&
             (decide (p.eventmsgtype = 3) && !containsNA p.homedescription "MISS" &&
              !containsNA p.visitordescription "MISS"))).length : Int) ∧
        (determine_rebound_type play pbp c).2.2 =
          (match (pbp.filter (fun p => inWindowExcl c play.eventnum p &&
              (decide (p.eventmsgtype = 2) && decide (p.player1_id = shot.player1_id)))).getLast? with
           | some missed_shot => missed_shot.eventnum
           | none => -1)) := by
  rcases hms : (pbp.filter (fun p => inWindowExcl c play.eventnum p &&
      (decide (p.eventmsgtype = 1) && decide (p.player1_id = shot.player1_id)))).getLast? with
      _ | ms
  · rcases hmis : (pbp.filter (fun p => inWindowExcl c play.eventnum p &&
        (decide (p.eventmsgtype = 2) && decide (p.player1_id = shot.player1_id)))).getLast? with
        _ | mis
    · simp only [determine_rebound_type, hq, filter_window_fuse, if_pos h3, hms, hmis]
      exact ⟨trivial, trivial⟩
    · simp only [determine_rebound_type, hq, filter_window_fuse, if_pos h3, hms, hmis]
      exact ⟨trivial, trivial⟩
  · simp only [determine_rebound_type, hq, filter_window_fuse, if_pos h3, hms]
    exact ⟨trivial, trivial⟩

/-! ## Record-builder invariants -/

/-- The invariant of a well-formed possession record relative to its
boundary event: team identifiers drawn from the game's two identifiers
and distinct, and player identities a disjoint partition of the ten
on-court slots. -/
def validPartition (play : Play) (home_id visitor_id : Int) (r : PossRecord) : Prop :=
  (r.offensive_team_id = home_id ∨ r.offensive_team_id = visitor_id) ∧
  (r.defensive_team_id = home_id ∨ r.defensive_team_id = visitor_id) ∧
  r.offensive_team_id ≠ r.defensive_team_id ∧
  r.offensive_players.Disjoint r.defensive_players ∧
  (r.offensive_players ++ r.defensive_players).Perm
    (play.home_players ++ play.visitor_players)

theorem validPartition_homeOff (play : Play) (home_id visitor_id : Int) (r : PossRecord)
    (hne : home_id ≠ visitor_id)
    (hnd : (play.home_players ++ play.visitor_players).Nodup)
    (h1 : r.offensive_team_id = home_id) (h2 : r.defensive_team_id = visitor_id)
    (h3 : r.offensive_players = play.home_players)
    (h4 : r.defensive_players = play.visitor_players) :
    validPartition play home_id visitor_id r := by
  refine ⟨Or.inl h1, Or.inr h2, ?_, ?_, ?_⟩
  · rw [h1, h2]; exact hne
  · rw [h3, h4]; exact List.disjoint_of_nodup_append hnd
  · rw [h3, h4]

theorem validPartition_visitorOff (play : Play) (home_id visitor_id : Int) (r : PossRecord)
    (hne : home_id ≠ visitor_id)
    (hnd : (play.home_players ++ play.visitor_players).Nodup)
    (h1 : r.offensive_team_id = visitor_id) (h2 : r.defensive_team_id = home_id)
    (h3 : r.offensive_players = play.visitor_players)
    (h4 : r.defensive_players = play.home_players) :
    validPartition play home_id visitor_id r := by
  refine ⟨Or.inr h1, Or.inl h2, ?_, ?_, ?_⟩
  · rw [h1, h2]; exact Ne.symm hne
  · rw [h3, h4]
    exact List.disjoint_of_nodup_append (List.nodup_append_comm.mp hnd)
  · rw [h3, h4]; exact List.perm_append_comm

/-- C6: for every boundary event, given distinct game team identifiers
and pairwise-distinct on-court slots, each record builder emits a record
whose team identifiers are the game's two identifiers (never equal) and
whose offensive and defensive player identities disjointly partition the
ten on-court slots; offense goes to the responsible player's side for
turnovers and scoring plays and to the opposing side for rebounds. -/
theorem builders_emit_valid_records (play : Play) (home_id visitor_id : Int) (points : Int)
    (hne : home_id ≠ visitor_id)
    (hnd : (play.home_players ++ play.visitor_players).Nodup) :
    (validPartition play home_id visitor_id (create_turnover_play play home_id visitor_id) ∧
      (create_turnover_play play home_id visitor_id).offensive_team_id =
        (if play.player1_team_id = home_id then home_id else visitor_id)) ∧
    (validPartition play home_id visitor_id
        (create_scoring_play play home_id visitor_id points) ∧
      (create_scoring_play play home_id visitor_id points).offensive_team_id =
        (if play.player1_team_id = home_id then home_id else visitor_id)) ∧
    (validPartition play home_id visitor_id
        (create_rebound_play play home_id visitor_id points) ∧
      (create_rebound_play play home_id visitor_id points).defensive_team_id =
        (if play.player1_team_id = home_id then home_id else visitor_id)) := by
  by_cases h : play.player1_team_id = home_id
  · simp only [create_turnover_play, create_scoring_play, create_rebound_play, if_pos h]
    exact ⟨⟨validPartition_homeOff play home_id visitor_id _ hne hnd rfl rfl rfl rfl, trivial⟩,
      ⟨validPartition_homeOff play home_id visitor_id _ hne hnd rfl rfl rfl rfl, trivial⟩,
      ⟨validPartition_visitorOff play home_id visitor_id _ hne hnd rfl rfl rfl rfl, trivial⟩⟩
  · simp only [create_turnover_play, create_scoring_play, create_rebound_play, if_neg h]
    exact ⟨⟨validPartition_visitorOff play home_id visitor_id _ hne hnd rfl rfl rfl rfl, trivial⟩,
      ⟨validPartition_visitorOff play home_id visitor_id _ hne hnd rfl rfl rfl rfl, trivial⟩,
      ⟨validPartition_homeOff play home_id visitor_id _ hne hnd rfl rfl rfl rfl, trivial⟩⟩

/-! ## Sequencer invariants -/

theorem create_turnover_play_eventnum (play : Play) (home_id visitor_id : Int) :
    (create_turnover_play play home_id visitor_id).eventnum = play.eventnum := by
  unfold create_turnover_play
  split <;> rfl

theorem create_rebound_play_eventnum (play : Play) (home_id visitor_id points : Int) :
    (create_rebound_play play home_id visitor_id points).eventnum = play.eventnum := by
  unfold create_rebound_play
  split <;> rfl

theorem create_scoring_play_eventnum (play : Play) (home_id visitor_id points : Int) :
    (create_scoring_play play home_id visitor_id points).eventnum = play.eventnum := by
  unfold create_scoring_play
  split <;> rfl

/-- Each sequencer transition either leaves the state unchanged or
replaces the table by a sublist of itself (the retraction) with one new
record appended, keyed by the current row's event index. -/
theorem possession_step_cases (home_id visitor_id : Int) (pbp : List Play) (st : SeqState)
    (row : Play) :
    possession_step home_id visitor_id pbp st row = st ∨
    ∃ l rec, (possession_step home_id visitor_id pbp st row).poss = l ++ [rec] ∧
      l.Sublist st.poss ∧ rec.eventnum = row.eventnum := by
  unfold possession_step
  split
  · exact Or.inr ⟨st.poss, _, rfl, List.Sublist.refl _,
      create_turnover_play_eventnum row home_id visitor_id⟩
  · split
    · dsimp only
      split
      · exact Or.inr ⟨_, _, rfl, List.filter_sublist _,
          create_rebound_play_eventnum row home_id visitor_id _⟩
      · exact Or.inl rfl
    · split
      · dsimp only
        split
        · exact Or.inr ⟨_, _, rfl, List.filter_sublist _,
            create_scoring_play_eventnum row home_id visitor_id _⟩
        · exact Or.inl rfl
      · exact Or.inl rfl

theorem foldl_keys_nodup (home_id visitor_id : Int) (pbp : List Play) :
    ∀ (rest : List Play) (st : SeqState),
      rest.Pairwise (fun a b => a.eventnum < b.eventnum) →
      (∀ r ∈ st.poss, ∀ p ∈ rest, r.eventnum < p.eventnum) →
      (st.poss.map PossRecord.eventnum).Nodup →
      (((rest.foldl (possession_step home_id visitor_id pbp) st).poss).map
        PossRecord.eventnum).Nodup
  | [], _, _, _, hnd => hnd
  | row :: rest, st, hpw, hlt, hnd => by
    rw [List.foldl_cons]
    have hpw' := (List.pairwise_cons.mp hpw).2
    have hrowlt := (List.pairwise_cons.mp hpw).1
    rcases possession_step_cases home_id visitor_id pbp st row with heq | ⟨l, rec, hposs, hsub, hkey⟩
    · rw [heq]
      exact foldl_keys_nodup home_id visitor_id pbp rest st hpw'
        (fun r hr p hp => hlt r hr p (List.mem_cons_of_mem row hp)) hnd
    · refine foldl_keys_nodup home_id visitor_id pbp rest _ hpw' ?_ ?_
      · intro r hr p hp
        rw [hposs] at hr
        rcases List.mem_append.mp hr with hrl | hrrec
        · exact hlt r (hsub.subset hrl) p (List.mem_cons_of_mem row hp)
        · rw [List.mem_singleton.mp hrrec, hkey]
          exact hrowlt p hp
      · rw [hposs, List.map_append]
        rw [List.nodup_append]
        refine ⟨(hsub.map PossRecord.eventnum).nodup hnd, List.nodup_singleton _, ?_⟩
        intro x hxl hxr
        rcases List.mem_map.mp hxl with ⟨r, hr, hrx⟩
        have hx : x = rec.eventnum := List.mem_singleton.mp (by simpa using hxr)
        have : r.eventnum < row.eventnum :=
          hlt r (hsub.subset hr) row (List.mem_cons_self row rest)
        omega

/-- C9: for a stream with strictly increasing (hence globally unique)
event indices, no two records retained in the final possession table
share the same boundary event index. -/
theorem final_table_keys_unique (pbp : List Play) (home_id visitor_id : Int)
    (hpw : pbp.Pairwise (fun a b => a.eventnum < b.eventnum)) :
    ((isolate_possessions pbp home_id visitor_id).map PossRecord.eventnum).Nodup := by
  exact foldl_keys_nodup home_id visitor_id pbp pbp _ hpw
    (by intro r hr; exact absurd hr (List.not_mem_nil r)) List.nodup_nil

theorem foldl_eventnum_nonneg (home_id visitor_id : Int) (pbp : List Play) :
    ∀ (rest : List Play) (st : SeqState),
      (∀ p ∈ rest, 0 ≤ p.eventnum) →
      (∀ r ∈ st.poss, 0 ≤ r.eventnum) →
      ∀ r ∈ (rest.foldl (possession_step home_id visitor_id pbp) st).poss, 0 ≤ r.eventnum
  | [], _, _, hst, r, hr => hst r hr
  | row :: rest, st, hrest, hst, r, hr => by
    rw [List.foldl_cons] at hr
    have hrest' : ∀ p ∈ rest, 0 ≤ p.eventnum :=
      fun p hp => hrest p (List.mem_cons_of_mem row hp)
    rcases possession_step_cases home_id visitor_id pbp st row with heq | ⟨l, rec, hposs, hsub, hkey⟩
    · rw [heq] at hr
      exact foldl_eventnum_nonneg home_id visitor_id pbp rest st hrest' hst r hr
    · refine foldl_eventnum_nonneg home_id visitor_id pbp rest _ hrest' ?_ r hr
      intro r' hr'
      rw [hposs] at hr'
      rcases List.mem_append.mp hr' with hl | hrec
      · exact hst r' (hsub.subset hl)
      · rw [List.mem_singleton.mp hrec, hkey]
        exact hrest row (List.mem_cons_self row rest)

/-- C7: retraction by event-index key is idempotent, removal of an index
matching no retained record is a no-op, and when every event index in
the stream is non-negative the no-void sentinel `-1` never removes any
record of the final possession table. -/
theorem retraction_idempotent_noop (poss : List PossRecord) (v : Int) (pbp : List Play)
    (home_id visitor_id : Int) (hnn : ∀ p ∈ pbp, 0 ≤ p.eventnum) :
    retractRecord (retractRecord poss v) v = retractRecord poss v ∧
    ((∀ r ∈ poss, r.eventnum ≠ v) → retractRecord poss v = poss) ∧
    retractRecord (isolate_possessions pbp home_id visitor_id) (-1) =
      isolate_possessions pbp home_id visitor_id := by
  refine ⟨?_, ?_, ?_⟩
  · simp [retractRecord, List.filter_filter]
  · intro h
    exact List.filter_eq_self.mpr fun r hr => decide_eq_true (h r hr)
  · refine List.filter_eq_self.mpr fun r hr => decide_eq_true ?_
    have h0 : 0 ≤ r.eventnum := by
      refine foldl_eventnum_nonneg home_id visitor_id pbp pbp _ hnn ?_ r hr
      intro r' hr'
      exact absurd hr' (List.not_mem_nil r')
    omega

/-- C10: when the responsible team identifier differs from the home
identifier — including identifiers equal to neither of the game's two
teams — every builder takes the visitor branch without rejecting the
input: turnover and scoring plays get the visitor team on offense and
the home team on defense, and rebound plays get the visitor team on
defense and the home team on offense. -/
theorem nonhome_team_visitor_branch (play : Play) (home_id visitor_id points : Int)
    (h : play.player1_team_id ≠ home_id) :
    (create_turnover_play play home_id visitor_id).offensive_team_id = visitor_id ∧
    (create_turnover_play play home_id visitor_id).defensive_team_id = home_id ∧
    (create_scoring_play play home_id visitor_id points).offensive_team_id = visitor_id ∧
    (create_scoring_play play home_id visitor_id points).defensive_team_id = home_id ∧
    (create_rebound_play play home_id visitor_id points).defensive_team_id = visitor_id ∧
    (create_rebound_play play home_id visitor_id points).offensive_team_id = home_id := by
  simp [create_turnover_play, create_scoring_play, create_rebound_play, if_neg h]

/-! ## Concrete stream fragments -/

/-- The five home on-court player identities used in the concrete runs. -/
def tenHome : List Int := [100, 101, 102, 103, 104]

/-- The five visitor on-court player identities used in the concrete runs. -/
def tenVisitor : List Int := [200, 201, 202, 203, 204]

/-- Made two-point field goal by player 100 of the home team (event 10). -/
def andOneFieldGoal : Play :=
  { eventnum := 10, eventmsgtype := 1,
    homedescription := some "Jones 12ft Jump Shot (2 PTS)", visitordescription := none,
    player1_id := 100, player1_team_id := 1,
    home_players := tenHome, visitor_players := tenVisitor }

/-- Made free throw "1 of 1" by the same player (event 11). -/
def andOneFreeThrow : Play :=
  { eventnum := 11, eventmsgtype := 3,
    homedescription := some "Jones Free Throw 1 of 1 (3 PTS)", visitordescription := none,
    player1_id := 100, player1_team_id := 1,
    home_players := tenHome, visitor_players := tenVisitor }

/-- The and-1 fragment of the specification's testable property. -/
def andOneStream : List Play :=
  [andOneFieldGoal, andOneFreeThrow]

/-- Made first free throw of a two-attempt trip by player 100 (event 1). -/
def earlyTripFreeThrow : Play :=
  { eventnum := 1, eventmsgtype := 3,
    homedescription := some "Smith Free Throw 1 of 2", visitordescription := none,
    player1_id := 100, player1_team_id := 1,
    home_players := tenHome, visitor_players := tenVisitor }

/-- Made free throw by a different home player, 105 (event 5). -/
def strayFreeThrow : Play :=
  { eventnum := 5, eventmsgtype := 3,
    homedescription := some "Baker Free Throw 1 of 1", visitordescription := none,
    player1_id := 105, player1_team_id := 1,
    home_players := tenHome, visitor_players := tenVisitor }

/-- Missed final free throw "2 of 2" by player 100 (event 10). -/
def finalTripMiss : Play :=
  { eventnum := 10, eventmsgtype := 3,
    homedescription := some "MISS Adams Free Throw 2 of 2", visitordescription := none,
    player1_id := 100, player1_team_id := 1,
    home_players := tenHome, visitor_players := tenVisitor }

/-- Rebound by visitor player 200 (event 20). -/
def tripRebound : Play :=
  { eventnum := 20, eventmsgtype := 4,
    homedescription := none, visitordescription := some "Clark REBOUND",
    player1_id := 200, player1_team_id := 2,
    home_players := tenHome, visitor_players := tenVisitor }

/-- A free-throw trip ended by a miss and a defensive rebound. -/
def tripStream : List Play :=
  [strayFreeThrow, finalTripMiss, tripRebound]

/-- Turnover charged to a team identifier (999) equal to neither of the
game's team identifiers. -/
def strayTeamTurnover : Play :=
  { eventnum := 7, eventmsgtype := 5,
    homedescription := none, visitordescription := some "Turnover",
    player1_id := 300, player1_team_id := 999,
    home_players := tenHome, visitor_players := tenVisitor }

/-! ## Concrete-run theorems: counterexamples and amended behaviour -/

/-- C1 fails on the code: on the and-1 fragment the final table keeps
two records, one of them keyed at event 10, because the made field goal
is itself a valid boundary and advances the cursor before the free
throw is examined. -/
theorem and1_fold_fails :
    (isolate_possessions andOneStream 1 2).length = 2 ∧
    ∃ r ∈ isolate_possessions andOneStream 1 2, r.eventnum = 10 := by
  decide

/-- C1 (amended): on the and-1 fragment the sequencer retains two
records — event 10 with 2 points (the field goal's own possession) and
event 11 with 1 point (the free throw's possession); no folding occurs. -/
theorem and1_two_records :
    (isolate_possessions andOneStream 1 2).map (fun r => (r.eventnum, r.points)) =
      [(10, 2), (11, 1)] := by
  decide

/-- C2 fails on the code: a made first attempt of a two-attempt trip is
accepted as a valid boundary even though the stream contains no other
made free throw — the inclusive window lets the triggering attempt
satisfy the guard by itself. -/
theorem made_first_attempt_closes :
    (determine_scoring_type earlyTripFreeThrow [earlyTripFreeThrow] 0 1).1 = true ∧
    ∀ p ∈ [earlyTripFreeThrow], p.eventnum = earlyTripFreeThrow.eventnum := by
  decide

/-- C3 fails on the code: on `tripStream` the rebound classifier reports
1 point, yet the window holds no made field goal and no made free throw
by the qualifying player (100) — the extra point is the made free throw
of the unrelated player 105, counted because the source applies no
player filter to the made-free-throw count. -/
theorem rebound_ft_player_count_fails :
    (determine_rebound_type tripRebound tripStream 0).2.1 = 1 ∧
    qualifying_shot tripRebound tripStream 0 = some finalTripMiss ∧
    (tripStream.filter (fun p => inWindowExcl 0 tripRebound.eventnum p &&
        (decide (p.eventmsgtype = 1) &&
         decide (p.player1_id = finalTripMiss.player1_id)))).length = 0 ∧
    (tripStream.filter (fun p => inWindowExcl 0 tripRebound.eventnum p &&
        (decide (p.eventmsgtype = 3) &&
         decide (p.player1_id = finalTripMiss.player1_id) &&
         !containsNA p.homedescription "MISS" &&
         !containsNA p.visitordescription "MISS"))).length = 0 := by
  decide

/-! ## Witnesses instantiating the hypothesis-bearing theorems -/

theorem ft_boundary_iff_made_ft_witness :
    earlyTripFreeThrow.eventmsgtype ≠ 1 ∧
    ((determine_scoring_type earlyTripFreeThrow [earlyTripFreeThrow] 0 1).1 = true ↔
      ∃ p ∈ [earlyTripFreeThrow], inWindowIncl 0 earlyTripFreeThrow.eventnum p = true ∧
        p.eventmsgtype = 3 ∧ p.player1_id = earlyTripFreeThrow.player1_id ∧
        containsNA (descColumn earlyTripFreeThrow 1 p) "MISS" = false) :=
  ⟨by decide, ft_boundary_iff_made_ft earlyTripFreeThrow [earlyTripFreeThrow] 0 1 (by decide)⟩

theorem rebound_ft_points_formula_witness :
    qualifying_shot tripRebound tripStream 0 = some finalTripMiss ∧
    finalTripMiss.eventmsgtype = 3 ∧
    (match (tripStream.filter (fun p => inWindowExcl 0 tripRebound.eventnum p &&
        (decide (p.eventmsgtype = 1) &&
         decide (p.player1_id = finalTripMiss.player1_id)))).getLast? with
     | some made_shot =>
        (determine_rebound_type tripRebound tripStream 0).2.1 =
          (if containsStr made_shot.homedescription "3PT" ||
             containsStr made_shot.visitordescription "3PT" then (3 : Int) else 2) +
            ((tripStream.filter (fun p => inWindowExcl 0 tripRebound.eventnum p &&
               (decide (p.eventmsgtype = 3) && !containsNA p.homedescription "MISS" &&
                !containsNA p.visitordescription "MISS"))).length : Int) ∧
        (determine_rebound_type tripRebound tripStream 0).2.2 = made_shot.eventnum
     | none =>
        (determine_rebound_type tripRebound tripStream 0).2.1 =
          ((tripStream.filter (fun p => inWindowExcl 0 tripRebound.eventnum p &&
             (decide (p.eventmsgtype = 3) && !containsNA p.homedescription "MISS" &&
              !containsNA p.visitordescription "MISS"))).length : Int) ∧
        (determine_rebound_type tripRebound tripStream 0).2.2 =
          (match (tripStream.filter (fun p => inWindowExcl 0 tripRebound.eventnum p &&
              (decide (p.eventmsgtype = 2) &&
               decide (p.player1_id = finalTripMiss.player1_id)))).getLast? with
           | some missed_shot => missed_shot.eventnum
           | none => -1)) :=
  ⟨by decide, by decide,
    rebound_ft_points_formula tripRebound finalTripMiss tripStream 0 (by decide) (by decide)⟩

theorem scoring_made_fg_boundary_witness :
    andOneFieldGoal.eventmsgtype = 1 ∧
    determine_scoring_type andOneFieldGoal andOneStream 0 1 =
      (true,
       (if containsStr andOneFieldGoal.homedescription "3PT" ||
          containsStr andOneFieldGoal.visitordescription "3PT" then (3 : Int) else 2) +
         ((andOneStream.filter (fun p => inWindowIncl 0 andOneFieldGoal.eventnum p &&
             (decide (p.eventmsgtype = 3) &&
               !containsNA (descColumn andOneFieldGoal 1 p) "MISS"))).length : Int),
       -1) :=
  ⟨by decide, scoring_made_fg_boundary andOneFieldGoal andOneStream 0 1 (by decide)⟩

theorem rebound_defensive_iff_witness :
    qualifying_shot tripRebound tripStream 0 = some finalTripMiss ∧
    ((determine_rebound_type tripRebound tripStream 0).1 = true ↔
      finalTripMiss.player1_team_id ≠ tripRebound.player1_team_id ∧
        finalTripMiss.player1_team_id ≠ tripRebound.player1_id) :=
  ⟨by decide, rebound_defensive_iff tripRebound finalTripMiss tripStream 0 (by decide)⟩

theorem builders_emit_valid_records_witness :
    (1 : Int) ≠ 2 ∧
    (andOneFieldGoal.home_players ++ andOneFieldGoal.visitor_players).Nodup ∧
    ((validPartition andOneFieldGoal 1 2 (create_turnover_play andOneFieldGoal 1 2) ∧
      (create_turnover_play andOneFieldGoal 1 2).offensive_team_id =
        (if andOneFieldGoal.player1_team_id = 1 then 1 else 2)) ∧
    (validPartition andOneFieldGoal 1 2 (create_scoring_play andOneFieldGoal 1 2 2) ∧
      (create_scoring_play andOneFieldGoal 1 2 2).offensive_team_id =
        (if andOneFieldGoal.player1_team_id = 1 then 1 else 2)) ∧
    (validPartition andOneFieldGoal 1 2 (create_rebound_play andOneFieldGoal 1 2 2) ∧
      (create_rebound_play andOneFieldGoal 1 2 2).defensive_team_id =
        (if andOneFieldGoal.player1_team_id = 1 then 1 else 2))) :=
  ⟨by decide, by decide, builders_emit_valid_records andOneFieldGoal 1 2 2 (by decide) (by decide)⟩

theorem retraction_idempotent_noop_witness :
    (∀ p ∈ andOneStream, 0 ≤ p.eventnum) ∧
    (retractRecord (retractRecord (isolate_possessions andOneStream 1 2) 10) 10 =
        retractRecord (isolate_possessions andOneStream 1 2) 10 ∧
      ((∀ r ∈ isolate_possessions andOneStream 1 2, r.eventnum ≠ 10) →
        retractRecord (isolate_possessions andOneStream 1 2) 10 =
          isolate_possessions andOneStream 1 2) ∧
      retractRecord (isolate_possessions andOneStream 1 2) (-1) =
        isolate_possessions andOneStream 1 2) :=
  ⟨by decide,
    retraction_idempotent_noop (isolate_possessions andOneStream 1 2) 10 andOneStream 1 2
      (by decide)⟩

theorem rebound_without_miss_skipped_witness :
    tripRebound.eventmsgtype = 4 ∧
    (∀ p ∈ [tripRebound],
      ¬((SeqState.mk [] 0).last_possession < p.eventnum ∧ p.eventnum < tripRebound.eventnum ∧
        isQualifyingMiss p = true)) ∧
    (determine_rebound_type tripRebound [tripRebound] (SeqState.mk [] 0).last_possession =
        (false, 0, -1) ∧
      possession_step 1 2 [tripRebound] (SeqState.mk [] 0) tripRebound = SeqState.mk [] 0) :=
  ⟨by decide, by decide,
    rebound_without_miss_skipped tripRebound [tripRebound] (SeqState.mk [] 0) 1 2
      (by decide) (by decide)⟩

theorem final_table_keys_unique_witness :
    andOneStream.Pairwise (fun a b => a.eventnum < b.eventnum) ∧
    ((isolate_possessions andOneStream 1 2).map PossRecord.eventnum).Nodup :=
  ⟨by decide, final_table_keys_unique andOneStream 1 2 (by decide)⟩

theorem nonhome_team_visitor_branch_witness :
    strayTeamTurnover.player1_team_id ≠ 1 ∧
    ((create_turnover_play strayTeamTurnover 1 2).offensive_team_id = 2 ∧
      (create_turnover_play strayTeamTurnover 1 2).defensive_team_id = 1 ∧
      (create_scoring_play strayTeamTurnover 1 2 0).offensive_team_id = 2 ∧
      (create_scoring_play strayTeamTurnover 1 2 0).defensive_team_id = 1 ∧
      (create_rebound_play strayTeamTurnover 1 2 0).defensive_team_id = 2 ∧
      (create_rebound_play strayTeamTurnover 1 2 0).offensive_team_id = 1) :=
  ⟨by decide, nonhome_team_visitor_branch strayTeamTurnover 1 2 0 (by decide)⟩

end WnbaRapm
